import Mathlib

/-!
Shallow embedding of the rpcx server dispatch core
(src/rpcx_server/src/lib.rs): the service registry keyed by the dot-joined
service key, the registration plugin chain, the per-connection decode loop
of Server::process, the request invoker invoke_fn, and the forced close.
Pieces of the external rpcx_protocol crate (the Message envelope and its
codec) are out of scope of the source tree and are modelled from the spec
where the doc comment says so.
-/

/-- Payload bytes (Vec of u8 in the source). -/
abbrev Bytes := List Nat

/-- Opaque serialization format indicator (SerializeType of rpcx_protocol). -/
abbrev SerializeType := Nat

/-- The uniform handler contract of the source:
RpcxFn = fn(payload, SerializeType) -> Result of bytes. -/
abbrev RpcxFn := Bytes → SerializeType → Except String Bytes

/-- The RegisterPlugin contract: register_fn(path, method, meta, f) -> Result of unit. -/
abbrev RegisterPlugin := String → String → String → RpcxFn → Except String Unit

/-- The ConnectPlugin contract, declared but never invoked by the dispatch core. -/
abbrev ConnectPlugin := String → Except String Unit

/-- Raw socket descriptor (RawFd in the source). -/
abbrev RawFd := Int

/-- Lookup in the association-list model of HashMap: the value of the first
entry carrying the key, none when absent. -/
def alGet {α : Type} : List (String × α) → String → Option α
  | [], _ => none
  | e :: rest, k => if e.1 == k then some e.2 else alGet rest k

/-- Insert-or-overwrite in the association-list model of HashMap: the new
binding replaces every previous binding of the same key, as HashMap::insert
keeps exactly one entry per key. -/
def alInsert {α : Type} (m : List (String × α)) (k : String) (v : α) : List (String × α) :=
  (k, v) :: m.filter (fun e => e.1 != k)

/-- Number of entries of the map carrying a given key. -/
def keyCount {α : Type} : List (String × α) → String → Nat
  | [], _ => 0
  | e :: rest, k => (if e.1 == k then 1 else 0) + keyCount rest k

/-- Modelled from the spec: the rpcx_protocol Message envelope is external to
src; it carries service_path, service_method, a string metadata map, a
serialization-format indicator and an opaque payload. -/
structure Message where
  service_path : String
  service_method : String
  metadata : List (String × String)
  serialize_type : Option SerializeType
  payload : Bytes

/-- Modelled from the spec: get_reply() derives a correlated response Message
with the same correlation fields (service_path, service_method), empty
payload and empty metadata, keeping the serialization format. -/
def Message.get_reply (m : Message) : Except String Message :=
  Except.ok { service_path := m.service_path, service_method := m.service_method,
              metadata := [], serialize_type := m.serialize_type, payload := [] }

/-- Modelled from the spec: get_serialize_type() -> Result of the format
indicator carried by the message. -/
def Message.get_serialize_type (m : Message) : Except String SerializeType :=
  match m.serialize_type with
  | some st => Except.ok st
  | none => Except.error "unknown serialize type"

/-- Modelled from the spec: the wire codec is out of scope, so encode() is
modelled as the injective wrapping of the message; a write action therefore
carries exactly the content of the encoded reply. -/
structure Encoded where
  msg : Message

/-- Modelled from the spec: encode() of the external codec. -/
def Message.encode (m : Message) : Encoded := ⟨m⟩

/-- Modelled from the spec: the reserved metadata key rpcx uses to signal a
dispatch-level service error; the exact literal lives in rpcx_protocol,
outside src. -/
def SERVICE_ERROR : String := "__rpcx_error__"

/-- The Server aggregate of the source: address, optional raw listening
descriptor, service registry, configured worker concurrency and the two
plugin chains. -/
structure Server where
  addr : String
  raw_fd : Option RawFd
  services : List (String × RpcxFn)
  thread_number : Nat
  register_plugins : List RegisterPlugin
  connect_plugins : List ConnectPlugin

/-- Truncation to u32, for the num_cpus cast and the wrapping doubling. -/
def u32 (x : Nat) : Nat := x % 4294967296

/-- Server::new(s, n): when n is zero the concurrency defaults to
(num_cpus::get() as u32) * 2 with u32 wrapping; ncpus is the processor count
the environment reports. -/
def Server.new (s : String) (n : Nat) (ncpus : Nat) : Server :=
  let thread_number := if n == 0 then u32 (u32 ncpus * 2) else n
  { addr := s, raw_fd := none, services := [], thread_number := thread_number,
    register_plugins := [], connect_plugins := [] }

/-- Observable events of one register_fn call. -/
inductive RegEvent where
  | pluginCall (p : RegisterPlugin) (path method meta : String) (f : RpcxFn)
  | pluginErrLog (err : String)
  | mapInsertEv (key : String)

/-- The plugin loop at the top of register_fn: each plugin of the chain is
called once, in list order, with the registration arguments; an error is
printed (eprintln) and otherwise ignored. -/
def pluginEvents (ps : List RegisterPlugin) (path method meta : String) (f : RpcxFn) :
    List RegEvent :=
  match ps with
  | [] => []
  | p :: rest =>
    RegEvent.pluginCall p path method meta f ::
      ((match p path method meta f with
        | Except.ok _ => []
        | Except.error err => [RegEvent.pluginErrLog err]) ++
        pluginEvents rest path method meta f)

/-- Server::register_fn: runs every register plugin first, then inserts the
handler under the dot-joined key, overwriting any previous binding; returns
the new state and the event trace of the call. -/
def Server.register_fn (s : Server) (service_path service_method meta : String) (f : RpcxFn) :
    Server × List RegEvent :=
  let evs := pluginEvents s.register_plugins service_path service_method meta f
  let key := service_path ++ "." ++ service_method
  ({ s with services := alInsert s.services key f },
   evs ++ [RegEvent.mapInsertEv key])

/-- Server::get_fn: lookup under the dot-joined key; None when absent. -/
def Server.get_fn (s : Server) (service_path service_method : String) : Option RpcxFn :=
  alGet s.services (service_path ++ "." ++ service_method)

/-- Server::close: if a raw descriptor was recorded by start(), pass it to
libc::close; the state (raw_fd included) is not modified, since close takes
the server by shared reference. Returns the unchanged state and the list of
descriptors handed to libc::close by this one call. -/
def Server.close (s : Server) : Server × List RawFd :=
  match s.raw_fd with
  | some fd => (s, [fd])
  | none => (s, [])

/-- Descriptors handed to libc::close by n successive close() calls. -/
def closeTrace (s : Server) : Nat → List RawFd
  | 0 => []
  | n + 1 => (Server.close s).2 ++ closeTrace (Server.close s).1 n

/-- Environment outcomes one dispatch step can observe: whether write_all and
flush on the not-found path succeed, the result of the stream shutdown, and
whether the peer address is available. -/
structure StepEnv where
  missWriteOk : Bool
  missFlushOk : Bool
  shutdownErr : Option String
  peerAddr : Option String

/-- Observable actions of the decode loop and of the invoker. -/
inductive Act where
  | spawnWorker (msg : Message) (f : RpcxFn)
  | writeAttempt (data : Encoded) (ok : Bool)
  | flushAttempt (ok : Bool)
  | shutdownBoth
  | logLine (s : String)

/-- Result of one decode-loop iteration: the loop goes on, returns after the
shutdown of the connection, or aborts on a failed unwrap. -/
inductive StepResult where
  | next (acts : List Act)
  | closed (acts : List Act)
  | panicked (acts : List Act)

/-- Log lines emitted after the shutdown attempt on the decode-error path:
the peer address is printed when available, with the shutdown error appended
when the shutdown failed; nothing is printed when peer_addr fails. -/
def closeLogs (shutdownErr : Option String) (peerAddr : Option String) : List Act :=
  match shutdownErr, peerAddr with
  | none, some sa => [Act.logLine ("client " ++ sa ++ " is closed")]
  | none, none => []
  | some e, some sa => [Act.logLine ("client " ++ sa ++ " is closed. err: " ++ e)]
  | some _, none => []

/-- The reply built on the service-not-found path: the derived reply with the
reserved error key set to the not-found text for the dot-joined key. -/
def missReply (reply0 : Message) (key : String) : Message :=
  let err := "service " ++ key ++ " not found"
  { reply0 with metadata := alInsert reply0.metadata SERVICE_ERROR err }

/-- The write of the not-found reply: write_all and flush are both unwrapped,
so a failure of either panics the decode loop. -/
def missWrite (env : StepEnv) (reply : Message) : StepResult :=
  if env.missWriteOk then
    if env.missFlushOk then
      StepResult.next [Act.writeAttempt reply.encode true, Act.flushAttempt true]
    else
      StepResult.panicked [Act.writeAttempt reply.encode true, Act.flushAttempt false]
  else
    StepResult.panicked [Act.writeAttempt reply.encode false]

/-- One iteration of the decode loop of Server::process: decode, then on
success look the dot-joined key up and either hand the message to a pool
worker or answer the not-found reply inline; on decode failure log, shut the
stream down both ways, print the close lines and return. -/
def processStep (services : List (String × RpcxFn)) (env : StepEnv)
    (decoded : Except String Message) : StepResult :=
  match decoded with
  | Except.ok msg =>
    match alGet services (msg.service_path ++ "." ++ msg.service_method) with
    | some f => StepResult.next [Act.spawnWorker msg f]
    | none =>
      match msg.get_reply with
      | Except.error _ => StepResult.panicked []
      | Except.ok reply0 =>
        missWrite env (missReply reply0 (msg.service_path ++ "." ++ msg.service_method))
  | Except.error err =>
    StepResult.closed
      ([Act.logLine ("failed to read: " ++ err), Act.shutdownBoth] ++
        closeLogs env.shutdownErr env.peerAddr)

/-- How the decode loop ends in the finite-stream model. -/
inductive LoopExit where
  | starved
  | closedConn
  | panicked

/-- The decode loop: consumes decode results until a decode error (shutdown
and return) or a panic; the model input stream is finite. -/
def processLoop (services : List (String × RpcxFn)) (env : StepEnv) :
    List (Except String Message) → List Act × LoopExit
  | [] => ([], LoopExit.starved)
  | d :: rest =>
    match processStep services env d with
    | StepResult.next acts =>
      let r := processLoop services env rest
      (acts ++ r.1, r.2)
    | StepResult.closed acts => (acts, LoopExit.closedConn)
    | StepResult.panicked acts => (acts, LoopExit.panicked)

/-- Environment outcomes the invoker can observe: whether write_all and flush
of the reply succeed. -/
structure InvokeEnv where
  writeOk : Bool
  flushOk : Bool

/-- invoke_fn(stream, msg, f): unwraps get_reply, the serialize type and the
handler result, so any of those failing panics the worker with no reply
(modelled none); on success the reply payload is filled in, encoded, written
and flushed, with write and flush errors ignored. -/
def invoke_fn (env : InvokeEnv) (msg : Message) (f : RpcxFn) : Option (List Act) :=
  match msg.get_reply with
  | Except.error _ => none
  | Except.ok reply0 =>
    match msg.get_serialize_type with
    | Except.error _ => none
    | Except.ok st =>
      match f msg.payload st with
      | Except.error _ => none
      | Except.ok reply =>
        let reply_msg := { reply0 with payload := reply }
        some [Act.writeAttempt reply_msg.encode env.writeOk,
              Act.flushAttempt env.flushOk]

/-- The per-connection dispatcher state built at the top of Server::process:
Pool::new(thread_number) sized by the configured concurrency, sharing the
service registry. -/
structure ConnDispatcher where
  pool_size : Nat
  services : List (String × RpcxFn)

/-- The entry of Server::process: the scoped pool is created with the
thread_number the server was configured with. -/
def processInit (thread_number : Nat) (services : List (String × RpcxFn)) : ConnDispatcher :=
  { pool_size := thread_number, services := services }

/-- start_with_listener spawns process(self.thread_number, self.services,
stream) for each accepted connection. -/
def Server.spawnConnection (s : Server) : ConnDispatcher :=
  processInit s.thread_number s.services

/-- One registration request: the arguments of one register_fn call. -/
structure RegInput where
  path : String
  method : String
  meta : String
  f : RpcxFn

/-- A sequence of register_fn calls applied in order. -/
def registerAll (s : Server) (cs : List RegInput) : Server :=
  cs.foldl (fun acc c => (Server.register_fn acc c.path c.method c.meta c.f).1) s

/-- The handler of the most recent registration of the sequence whose
dot-joined key is k, falling back to a default for untouched keys. -/
def lastByKey (cs : List RegInput) (k : String) (dflt : Option RpcxFn) : Option RpcxFn :=
  cs.foldl (fun acc c => if c.path ++ "." ++ c.method == k then some c.f else acc) dflt

/-- The plugin invocations recorded in an event trace, in order. -/
def regCalls (evs : List RegEvent) :
    List (RegisterPlugin × String × String × String × RpcxFn) :=
  evs.filterMap (fun ev => match ev with
    | RegEvent.pluginCall p path method meta f => some (p, path, method, meta, f)
    | _ => none)

/-- A handler echoing its payload, used as a concrete registration target. -/
def hEcho : RpcxFn := fun payload _ => Except.ok payload

/-- The server obtained by registering the single pair ("a.b", "c"). -/
def sCollision : Server :=
  (Server.register_fn (Server.new "127.0.0.1:8972" 1 1) "a.b" "c" "" hEcho).1

/-- A concrete well-formed request. -/
def msgBoom : Message :=
  { service_path := "Calc", service_method := "Add", metadata := [],
    serialize_type := some 0, payload := [1, 2] }

/-- A handler that always fails. -/
def fBoom : RpcxFn := fun _ _ => Except.error "boom"

/-- A second concrete well-formed request, for the witness of the amended C2. -/
def msgBoomW : Message :=
  { service_path := "Calc", service_method := "Sub", metadata := [],
    serialize_type := some 1, payload := [9] }

/-- A second failing handler. -/
def fBoomW : RpcxFn := fun _ _ => Except.error "denied"

/-- The request of the miss-path example of the spec. -/
def msgMiss : Message :=
  { service_path := "Calc", service_method := "MissingMethod", metadata := [],
    serialize_type := some 0, payload := [] }

/-- A step environment where every stream operation succeeds. -/
def envOk : StepEnv :=
  { missWriteOk := true, missFlushOk := true, shutdownErr := none, peerAddr := none }

/-- A concrete request for the C4 counterexample. -/
def msgMiss2 : Message :=
  { service_path := "A", service_method := "B", metadata := [],
    serialize_type := some 0, payload := [] }

/-- A step environment whose not-found write fails. -/
def envNoWrite : StepEnv :=
  { missWriteOk := false, missFlushOk := true, shutdownErr := none, peerAddr := none }

/-- A concrete request for the C4 witness. -/
def msgMiss4 : Message :=
  { service_path := "C", service_method := "D", metadata := [],
    serialize_type := some 2, payload := [7] }

/-- A step environment with a failing shutdown and a known peer, for C5. -/
def envC5 : StepEnv :=
  { missWriteOk := true, missFlushOk := true, shutdownErr := some "eperm",
    peerAddr := some "9.9.9.9:80" }

/-- A register plugin that accepts. -/
def plugA : RegisterPlugin := fun _ _ _ _ => Except.ok ()

/-- A register plugin that fails. -/
def plugB : RegisterPlugin := fun _ _ _ _ => Except.error "veto"

/-- Another register plugin that accepts. -/
def plugC : RegisterPlugin := fun _ _ _ _ => Except.ok ()

/-- A server carrying three register plugins, the second of which fails. -/
def sPlugged : Server :=
  { Server.new "h:1" 1 1 with register_plugins := [plugA, plugB, plugC] }

/-- A server whose start recorded descriptor 3. -/
def sFd3 : Server :=
  { addr := "127.0.0.1:8972", raw_fd := some 3, services := [], thread_number := 1,
    register_plugins := [], connect_plugins := [] }

/-- Lookup after insert: the inserted key reads back the new value, every
other key reads as before. -/
theorem alGet_alInsert {α : Type} (m : List (String × α)) (k k' : String) (v : α) :
    alGet (alInsert m k v) k' = if k == k' then some v else alGet m k' := by
  by_cases h : k = k'
  · subst h
    simp [alInsert, alGet]
  · have hbe : (k == k') = false := by
      simpa using h
    simp only [alInsert, alGet, hbe, if_false, Bool.false_eq_true]
    induction m with
    | nil => simp [alGet]
    | cons e rest ih =>
      by_cases he : e.1 = k
      · have h1 : (e.1 != k) = false := by simp [he]
        have h2 : (e.1 == k') = false := by
          rw [he]
          simpa using h
        simp [List.filter_cons, h1, alGet, h2, ih]
      · have h1 : (e.1 != k) = true := by simp [he]
        simp [List.filter_cons, h1, alGet, ih]

/-- Every entry of the filtered tail carries a key other than k. -/
theorem keyCount_filter_self {α : Type} (m : List (String × α)) (k : String) :
    keyCount (m.filter (fun e => e.1 != k)) k = 0 := by
  induction m with
  | nil => rfl
  | cons e rest ih =>
    by_cases he : e.1 = k
    · have h1 : (e.1 != k) = false := by simp [he]
      simp [List.filter_cons, h1, ih]
    · have h1 : (e.1 != k) = true := by simp [he]
      have h2 : (e.1 == k) = false := by simpa using he
      simp [List.filter_cons, h1, keyCount, h2, ih]

/-- Filtering never increases the count of a key. -/
theorem keyCount_filter_le {α : Type} (m : List (String × α)) (k k' : String) :
    keyCount (m.filter (fun e => e.1 != k)) k' ≤ keyCount m k' := by
  induction m with
  | nil => exact Nat.le_refl 0
  | cons e rest ih =>
    by_cases he : (e.1 != k) = true
    · simp only [List.filter_cons, he, if_true, keyCount]
      exact Nat.add_le_add_left ih _
    · have h1 : (e.1 != k) = false := by
        simpa using he
      simp only [List.filter_cons, h1, Bool.false_eq_true, if_false, keyCount]
      exact Nat.le_trans ih (Nat.le_add_left _ _)

/-- Insertion keeps at most one entry per key when the map already does. -/
theorem keyCount_alInsert_le_one {α : Type} (m : List (String × α)) (k k' : String) (v : α)
    (hm : keyCount m k' ≤ 1) : keyCount (alInsert m k v) k' ≤ 1 := by
  by_cases h : k = k'
  · subst h
    simp [alInsert, keyCount, keyCount_filter_self]
  · have hbe : (k == k') = false := by simpa using h
    simp only [alInsert, keyCount, hbe, Bool.false_eq_true, if_false, Nat.zero_add]
    exact Nat.le_trans (keyCount_filter_le m k k') hm

/-- The registry read of get_fn after one register_fn call. -/
theorem get_fn_register_fn (s : Server) (path method meta : String) (f : RpcxFn)
    (p m : String) :
    Server.get_fn (Server.register_fn s path method meta f).1 p m =
      if path ++ "." ++ method == p ++ "." ++ m then some f
      else Server.get_fn s p m := by
  show alGet (alInsert s.services (path ++ "." ++ method) f) (p ++ "." ++ m) = _
  rw [alGet_alInsert]
  rfl

/-- The registry read after a whole registration sequence folds over it. -/
theorem get_fn_registerAll (cs : List RegInput) : ∀ (s : Server) (p m : String),
    Server.get_fn (registerAll s cs) p m =
      lastByKey cs (p ++ "." ++ m) (Server.get_fn s p m) := by
  induction cs with
  | nil => intro s p m; rfl
  | cons c rest ih =>
    intro s p m
    have h1 : registerAll s (c :: rest) =
        registerAll (Server.register_fn s c.path c.method c.meta c.f).1 rest := rfl
    have h2 : lastByKey (c :: rest) (p ++ "." ++ m) (Server.get_fn s p m) =
        lastByKey rest (p ++ "." ++ m)
          (if c.path ++ "." ++ c.method == p ++ "." ++ m then some c.f
           else Server.get_fn s p m) := rfl
    rw [h1, ih, h2, get_fn_register_fn]

/-- A registration sequence keeps at most one registry entry per key. -/
theorem keyCount_registerAll (cs : List RegInput) : ∀ (s : Server),
    (∀ k, keyCount s.services k ≤ 1) →
    ∀ k, keyCount (registerAll s cs).services k ≤ 1 := by
  induction cs with
  | nil => intro s h k; exact h k
  | cons c rest ih =>
    intro s h k
    exact ih (Server.register_fn s c.path c.method c.meta c.f).1
      (fun k2 => keyCount_alInsert_le_one s.services _ k2 c.f (h k2)) k

/-- The close operation never modifies the server state. -/
theorem close_fst (s : Server) : (Server.close s).1 = s := by
  unfold Server.close
  cases s.raw_fd <;> rfl

/-- With a recorded descriptor, each close call hands that same descriptor to
libc::close again. -/
theorem closeTrace_some (s : Server) (fd : RawFd) (h : s.raw_fd = some fd) :
    ∀ n, closeTrace s n = List.replicate n fd := by
  intro n
  induction n with
  | zero => rfl
  | succ n ih =>
    show (Server.close s).2 ++ closeTrace (Server.close s).1 n = List.replicate (n + 1) fd
    rw [close_fst, ih]
    unfold Server.close
    rw [h]
    simp [List.replicate]

/-- With no recorded descriptor, close never emits a syscall. -/
theorem closeTrace_none (s : Server) (h : s.raw_fd = none) :
    ∀ n, closeTrace s n = [] := by
  intro n
  induction n with
  | zero => rfl
  | succ n ih =>
    show (Server.close s).2 ++ closeTrace (Server.close s).1 n = []
    rw [close_fst, ih]
    unfold Server.close
    rw [h]
    rfl

/-- filterMap distributes over append. -/
theorem regCalls_append (a b : List RegEvent) :
    regCalls (a ++ b) = regCalls a ++ regCalls b := by
  simp [regCalls, List.filterMap_append]

/-- The plugin loop records exactly one call per plugin, in chain order, each
with the registration arguments. -/
theorem regCalls_pluginEvents (ps : List RegisterPlugin) (path method meta : String)
    (f : RpcxFn) :
    regCalls (pluginEvents ps path method meta f) =
      ps.map (fun p => (p, path, method, meta, f)) := by
  induction ps with
  | nil => rfl
  | cons p rest ih =>
    cases hp : p path method meta f with
    | ok u =>
      simp [pluginEvents, hp, regCalls, List.filterMap_append, List.filterMap_cons] at ih ⊢
      exact ih
    | error e =>
      simp [pluginEvents, hp, regCalls, List.filterMap_append, List.filterMap_cons] at ih ⊢
      exact ih

/-- A failing plugin leaves its error line in the trace of the plugin loop. -/
theorem pluginErrLog_mem (ps : List RegisterPlugin) (path method meta : String)
    (f : RpcxFn) (p : RegisterPlugin) (e : String) (hp : p ∈ ps)
    (he : p path method meta f = Except.error e) :
    RegEvent.pluginErrLog e ∈ pluginEvents ps path method meta f := by
  induction ps with
  | nil => cases hp
  | cons q rest ih =>
    cases hp with
    | head =>
      simp [pluginEvents, he]
    | tail _ htail =>
      cases hq : q path method meta f with
      | ok u =>
        simp only [pluginEvents, hq, List.nil_append, List.mem_cons]
        exact Or.inr (ih htail)
      | error e2 =>
        simp only [pluginEvents, hq, List.cons_append, List.nil_append, List.mem_cons]
        exact Or.inr (Or.inr (ih htail))

/-- invoke_fn written as one match chain over the fallible inputs. -/
theorem invoke_fn_eq (env : InvokeEnv) (msg : Message) (f : RpcxFn) :
    invoke_fn env msg f =
      match msg.get_serialize_type with
      | Except.error _ => none
      | Except.ok st =>
        match f msg.payload st with
        | Except.error _ => none
        | Except.ok reply =>
          some [Act.writeAttempt
                  (Message.encode { service_path := msg.service_path,
                                    service_method := msg.service_method,
                                    metadata := [],
                                    serialize_type := msg.serialize_type,
                                    payload := reply }) env.writeOk,
                Act.flushAttempt env.flushOk] := rfl

/-- invoke_fn panics with no actions when the serialize type is unknown. -/
theorem invoke_fn_none_of_st_err (env : InvokeEnv) (msg : Message) (f : RpcxFn) (e : String)
    (hst : msg.get_serialize_type = Except.error e) :
    invoke_fn env msg f = none := by
  rw [invoke_fn_eq, hst]

/-- invoke_fn panics with no actions when the handler fails. -/
theorem invoke_fn_none_of_handler_err (env : InvokeEnv) (msg : Message) (f : RpcxFn)
    (st : SerializeType) (e : String)
    (hst : msg.get_serialize_type = Except.ok st)
    (hf : f msg.payload st = Except.error e) :
    invoke_fn env msg f = none := by
  rw [invoke_fn_eq, hst]
  show (match f msg.payload st with
        | Except.error _ => none
        | Except.ok reply =>
          some [Act.writeAttempt
                  (Message.encode { service_path := msg.service_path,
                                    service_method := msg.service_method,
                                    metadata := [],
                                    serialize_type := msg.serialize_type,
                                    payload := reply }) env.writeOk,
                Act.flushAttempt env.flushOk]) = none
  rw [hf]

/-- On a successful handler, invoke_fn writes and flushes the filled reply,
whatever the write environment. -/
theorem invoke_fn_some_of_ok (env : InvokeEnv) (msg : Message) (f : RpcxFn)
    (st : SerializeType) (r : Bytes)
    (hst : msg.get_serialize_type = Except.ok st)
    (hf : f msg.payload st = Except.ok r) :
    invoke_fn env msg f =
      some [Act.writeAttempt
              (Message.encode { service_path := msg.service_path,
                                service_method := msg.service_method,
                                metadata := [],
                                serialize_type := msg.serialize_type,
                                payload := r }) env.writeOk,
            Act.flushAttempt env.flushOk] := by
  rw [invoke_fn_eq, hst]
  show (match f msg.payload st with
        | Except.error _ => none
        | Except.ok reply =>
          some [Act.writeAttempt
                  (Message.encode { service_path := msg.service_path,
                                    service_method := msg.service_method,
                                    metadata := [],
                                    serialize_type := msg.serialize_type,
                                    payload := reply }) env.writeOk,
                Act.flushAttempt env.flushOk]) = _
  rw [hf]

/-- Whether invoke_fn completes does not depend on the write environment. -/
theorem invoke_fn_isSome_env (env env2 : InvokeEnv) (msg : Message) (f : RpcxFn) :
    (invoke_fn env msg f).isSome = (invoke_fn env2 msg f).isSome := by
  cases hst : msg.get_serialize_type with
  | error e =>
    rw [invoke_fn_none_of_st_err env msg f e hst, invoke_fn_none_of_st_err env2 msg f e hst]
  | ok st =>
    cases hf : f msg.payload st with
    | error e =>
      rw [invoke_fn_none_of_handler_err env msg f st e hst hf,
          invoke_fn_none_of_handler_err env2 msg f st e hst hf]
    | ok r =>
      rw [invoke_fn_some_of_ok env msg f st r hst hf,
          invoke_fn_some_of_ok env2 msg f st r hst hf]
      rfl

/-- invoke_fn never emits a connection shutdown. -/
theorem invoke_fn_no_shutdown (env : InvokeEnv) (msg : Message) (f : RpcxFn)
    (acts : List Act) (h : invoke_fn env msg f = some acts) :
    Act.shutdownBoth ∉ acts := by
  cases hst : msg.get_serialize_type with
  | error e =>
    rw [invoke_fn_none_of_st_err env msg f e hst] at h
    exact absurd h (by simp)
  | ok st =>
    cases hf : f msg.payload st with
    | error e =>
      rw [invoke_fn_none_of_handler_err env msg f st e hst hf] at h
      exact absurd h (by simp)
    | ok r =>
      rw [invoke_fn_some_of_ok env msg f st r hst hf] at h
      simp only [Option.some.injEq] at h
      subst h
      simp

/-- String append is associative (via the underlying character list). -/
theorem strAppendAssoc (a b c : String) : a ++ b ++ c = a ++ (b ++ c) := by
  cases a with
  | mk da =>
    cases b with
    | mk db =>
      cases c with
      | mk dc =>
        show String.mk (da ++ db ++ dc) = String.mk (da ++ (db ++ dc))
        rw [List.append_assoc]

/-- One successful decode written as a match over the registry lookup. -/
theorem processStep_ok_eq (services : List (String × RpcxFn)) (env : StepEnv)
    (msg : Message) :
    processStep services env (Except.ok msg) =
      match alGet services (msg.service_path ++ "." ++ msg.service_method) with
      | some f => StepResult.next [Act.spawnWorker msg f]
      | none =>
        match msg.get_reply with
        | Except.error _ => StepResult.panicked []
        | Except.ok reply0 =>
          missWrite env
            (missReply reply0 (msg.service_path ++ "." ++ msg.service_method)) := rfl

/-- The decode loop answers an unregistered key inline via the not-found
write of the derived reply. -/
theorem processStep_miss (services : List (String × RpcxFn)) (env : StepEnv) (msg : Message)
    (hmiss : alGet services (msg.service_path ++ "." ++ msg.service_method) = none) :
    processStep services env (Except.ok msg) =
      missWrite env
        (missReply
          { service_path := msg.service_path, service_method := msg.service_method,
            metadata := [], serialize_type := msg.serialize_type, payload := [] }
          (msg.service_path ++ "." ++ msg.service_method)) := by
  rw [processStep_ok_eq, hmiss]
  rfl

/-- The decode loop hands a registered key to a pool worker. -/
theorem processStep_hit (services : List (String × RpcxFn)) (env : StepEnv) (msg : Message)
    (f : RpcxFn)
    (hhit : alGet services (msg.service_path ++ "." ++ msg.service_method) = some f) :
    processStep services env (Except.ok msg) = StepResult.next [Act.spawnWorker msg f] := by
  rw [processStep_ok_eq, hhit]

/-- One decode failure: log, shutdown both ways, close lines, loop exit. -/
theorem processLoop_decode_err (services : List (String × RpcxFn)) (env : StepEnv)
    (err : String) (rest : List (Except String Message)) :
    processLoop services env (Except.error err :: rest) =
      ([Act.logLine ("failed to read: " ++ err), Act.shutdownBoth] ++
        closeLogs env.shutdownErr env.peerAddr, LoopExit.closedConn) := rfl

/-- The close lines are log lines only. -/
theorem closeLogs_only_logs (se pa : Option String) (a : Act) (h : a ∈ closeLogs se pa) :
    ∃ t, a = Act.logLine t := by
  cases se with
  | none =>
    cases pa with
    | none => simp [closeLogs] at h
    | some sa =>
      simp only [closeLogs, List.mem_singleton] at h
      exact ⟨_, h⟩
  | some e =>
    cases pa with
    | none => simp [closeLogs] at h
    | some sa =>
      simp only [closeLogs, List.mem_singleton] at h
      exact ⟨_, h⟩

/-- Claim C1, counterexample: the registry key is the plain dot-join, so after
registering only the pair ("a.b", "c") the distinct, never-registered pair
("a", "b.c") does not read back as none: get_fn returns the handler. This
refutes the clause that a never-registered pair returns None. -/
theorem c1_collision_counterexample :
    Server.get_fn sCollision "a" "b.c" = some hEcho
    ∧ ("a", "b.c") ≠ (("a.b", "c") : String × String) := by
  constructor
  · rfl
  · decide

/-- Claim C1 (amended): after any sequence of register_fn calls, get_fn(p, m)
returns the handler of the most recent call whose dot-joined key equals
p.m (last-write-wins per ServiceKey), falling back to the prior registry
content when no call's key matches; and starting from a fresh server the
registry keeps exactly at most one entry per key. -/
theorem c1_get_fn_last_write (s : Server) (cs : List RegInput) (p m : String) :
    Server.get_fn (registerAll s cs) p m =
      lastByKey cs (p ++ "." ++ m) (Server.get_fn s p m)
    ∧ ∀ (addr : String) (n ncpus : Nat) (k : String),
        keyCount (registerAll (Server.new addr n ncpus) cs).services k ≤ 1 := by
  constructor
  · exact get_fn_registerAll cs s p m
  · intro addr n ncpus k
    refine keyCount_registerAll cs (Server.new addr n ncpus) (fun k2 => ?_) k
    show keyCount [] k2 ≤ 1
    exact Nat.zero_le 1

/-- Claim C2, counterexample: a handler returning a non-success result makes
invoke_fn unwrap-panic before any write: the request produces no reply at
all, so the client does not receive a reply carrying an error string. -/
theorem c2_handler_error_counterexample :
    invoke_fn { writeOk := true, flushOk := true } msgBoom fBoom = none := rfl

/-- Claim C2 (amended): a handler failure panics the invoking unit of work
before any write, so no reply is sent for that request; and invoke_fn never
shuts the connection down, whatever happens, so the failure is confined to
that one request. -/
theorem c2_handler_error_aborts (env : InvokeEnv) (msg : Message) (f : RpcxFn)
    (st : SerializeType) (e : String)
    (hst : msg.get_serialize_type = Except.ok st)
    (hf : f msg.payload st = Except.error e) :
    invoke_fn env msg f = none
    ∧ ∀ (env2 : InvokeEnv) (msg2 : Message) (f2 : RpcxFn) (acts : List Act),
        invoke_fn env2 msg2 f2 = some acts → Act.shutdownBoth ∉ acts :=
  ⟨invoke_fn_none_of_handler_err env msg f st e hst hf,
   fun env2 msg2 f2 acts h => invoke_fn_no_shutdown env2 msg2 f2 acts h⟩

/-- Claim C2, witness of the amended theorem at a concrete failing handler. -/
theorem c2_handler_error_aborts_witness :
    invoke_fn { writeOk := false, flushOk := false } msgBoomW fBoomW = none :=
  (c2_handler_error_aborts { writeOk := false, flushOk := false } msgBoomW fBoomW 1 "denied"
    rfl rfl).1

/-- Claim C3: a well-formed request whose dot-joined key is not registered is
answered synchronously on the decode loop: the reply derives from
get_reply, its SERVICE_ERROR metadata entry is exactly the not-found text
for that key, its payload stays empty, it keeps the correlation fields, it
is encoded and written (then flushed) on the connection, and no worker is
spawned for it. -/
theorem c3_miss_reply (services : List (String × RpcxFn)) (env : StepEnv) (msg : Message)
    (hmiss : alGet services (msg.service_path ++ "." ++ msg.service_method) = none)
    (hw : env.missWriteOk = true) (hf : env.missFlushOk = true) :
    ∃ reply : Message,
      processStep services env (Except.ok msg) =
        StepResult.next [Act.writeAttempt reply.encode true, Act.flushAttempt true]
      ∧ alGet reply.metadata SERVICE_ERROR =
          some ("service " ++ (msg.service_path ++ "." ++ msg.service_method) ++ " not found")
      ∧ reply.payload = []
      ∧ reply.service_path = msg.service_path
      ∧ reply.service_method = msg.service_method
      ∧ ∀ (m2 : Message) (g : RpcxFn),
          Act.spawnWorker m2 g ∉
            [Act.writeAttempt reply.encode true, Act.flushAttempt true] := by
  refine ⟨missReply
      { service_path := msg.service_path, service_method := msg.service_method,
        metadata := [], serialize_type := msg.serialize_type, payload := [] }
      (msg.service_path ++ "." ++ msg.service_method), ?_, ?_, rfl, rfl, rfl, ?_⟩
  · rw [processStep_miss services env msg hmiss]
    unfold missWrite
    rw [hw, hf]
    simp
  · show alGet
        (alInsert [] SERVICE_ERROR
          ("service " ++ (msg.service_path ++ "." ++ msg.service_method) ++ " not found"))
        SERVICE_ERROR =
      some ("service " ++ (msg.service_path ++ "." ++ msg.service_method) ++ " not found")
    rw [alGet_alInsert]
    simp
  · intro m2 g
    simp

/-- Claim C3, witness at the unregistered key "Calc.MissingMethod". -/
theorem c3_miss_reply_witness :
    ∃ reply : Message,
      processStep [] envOk (Except.ok msgMiss) =
        StepResult.next [Act.writeAttempt reply.encode true, Act.flushAttempt true]
      ∧ alGet reply.metadata SERVICE_ERROR =
          some ("service " ++ (msgMiss.service_path ++ "." ++ msgMiss.service_method) ++
            " not found")
      ∧ reply.payload = []
      ∧ reply.service_path = msgMiss.service_path
      ∧ reply.service_method = msgMiss.service_method
      ∧ ∀ (m2 : Message) (g : RpcxFn),
          Act.spawnWorker m2 g ∉
            [Act.writeAttempt reply.encode true, Act.flushAttempt true] :=
  c3_miss_reply [] envOk msgMiss rfl rfl rfl

/-- Claim C4, counterexample: on the service-not-found path the reply write is
unwrapped, so a failed write_all panics the decode loop instead of being
swallowed: the step does not continue and the loop exits by panic. This
refutes the clause that a failed reply write never terminates the loop. -/
theorem c4_miss_write_failure_counterexample :
    (∃ acts, processStep [] envNoWrite (Except.ok msgMiss2) = StepResult.panicked acts)
    ∧ (∀ acts, processStep [] envNoWrite (Except.ok msgMiss2) ≠ StepResult.next acts)
    ∧ (processLoop [] envNoWrite [Except.ok msgMiss2, Except.ok msgMiss2]).2 =
        LoopExit.panicked := by
  refine ⟨⟨_, rfl⟩, ?_, rfl⟩
  intro acts h
  rw [show processStep [] envNoWrite (Except.ok msgMiss2) =
      StepResult.panicked
        [Act.writeAttempt
          (Message.encode
            { service_path := "A", service_method := "B",
              metadata := [(SERVICE_ERROR, "service A.B not found")],
              serialize_type := some 0, payload := [] }) false] from rfl] at h
  exact StepResult.noConfusion h

/-- Claim C4 (amended): on the handler-reply path of invoke_fn write and flush
failures are ignored and never change whether the invocation completes; on
the service-not-found path of the decode loop a failed write is unwrapped
and panics the loop. -/
theorem c4_write_failure_policy :
    (∀ (env env2 : InvokeEnv) (msg : Message) (f : RpcxFn),
        (invoke_fn env msg f).isSome = (invoke_fn env2 msg f).isSome)
    ∧ ∀ (services : List (String × RpcxFn)) (env : StepEnv) (msg : Message),
        alGet services (msg.service_path ++ "." ++ msg.service_method) = none →
        env.missWriteOk = false →
        ∃ acts, processStep services env (Except.ok msg) = StepResult.panicked acts := by
  constructor
  · exact invoke_fn_isSome_env
  · intro services env msg hmiss hw
    rw [processStep_miss services env msg hmiss]
    unfold missWrite
    rw [hw]
    exact ⟨_, rfl⟩

/-- Claim C4, witness of the amended theorem at a concrete miss with a failing
write. -/
theorem c4_write_failure_policy_witness :
    ∃ acts, processStep [] envNoWrite (Except.ok msgMiss4) = StepResult.panicked acts :=
  c4_write_failure_policy.2 [] envNoWrite msgMiss4 rfl rfl

/-- Claim C5: on the first decode failure the loop emits no reply write for
the failed frame, attempts the two-way shutdown, logs the read failure, the
peer address when available and the shutdown error when one occurred with a
known peer, exits the loop as closed, and the rest of the input stream is
never consumed; the registry is read-only to the loop, so no server state is
touched. -/
theorem c5_decode_failure_closes (services : List (String × RpcxFn)) (env : StepEnv)
    (err : String) (rest : List (Except String Message)) :
    processLoop services env (Except.error err :: rest) =
      ([Act.logLine ("failed to read: " ++ err), Act.shutdownBoth] ++
        closeLogs env.shutdownErr env.peerAddr, LoopExit.closedConn)
    ∧ processLoop services env (Except.error err :: rest) =
        processLoop services env [Except.error err]
    ∧ (∀ (d : Encoded) (b : Bool),
        Act.writeAttempt d b ∉ (processLoop services env (Except.error err :: rest)).1)
    ∧ (∀ sa, env.peerAddr = some sa →
        ∃ t, Act.logLine ("client " ++ sa ++ t) ∈ closeLogs env.shutdownErr env.peerAddr)
    ∧ (∀ sa e, env.peerAddr = some sa → env.shutdownErr = some e →
        Act.logLine ("client " ++ sa ++ " is closed. err: " ++ e) ∈
          closeLogs env.shutdownErr env.peerAddr) := by
  refine ⟨rfl, rfl, ?_, ?_, ?_⟩
  · intro d b h
    have h2 : Act.writeAttempt d b ∈
        ([Act.logLine ("failed to read: " ++ err), Act.shutdownBoth] ++
          closeLogs env.shutdownErr env.peerAddr) := h
    rcases List.mem_append.mp h2 with h3 | h3
    · simp at h3
    · rcases closeLogs_only_logs _ _ _ h3 with ⟨t, ht⟩
      exact Act.noConfusion ht
  · intro sa hsa
    cases hse : env.shutdownErr with
    | none =>
      refine ⟨" is closed", ?_⟩
      simp [closeLogs, hse, hsa]
    | some e =>
      refine ⟨" is closed. err: " ++ e, ?_⟩
      rw [← strAppendAssoc ("client " ++ sa) " is closed. err: " e]
      simp [closeLogs, hse, hsa]
  · intro sa e hsa hse
    simp [closeLogs, hse, hsa]

/-- Claim C5, witness with a known peer address and a failing shutdown. -/
theorem c5_decode_failure_closes_witness :
    ∃ t, Act.logLine ("client " ++ "9.9.9.9:80" ++ t) ∈
      closeLogs envC5.shutdownErr envC5.peerAddr :=
  (c5_decode_failure_closes [] envC5 "eof" []).2.2.2.1 "9.9.9.9:80" rfl

/-- Claim C6: one register_fn call invokes every register plugin exactly once,
in chain order, with (path, method, meta, handler), all before the registry
insertion event; a failing plugin leaves its error in the log trace while
the handler is still inserted and the remaining plugins still appear. -/
theorem c6_register_plugins_in_order (s : Server) (path method meta : String) (f : RpcxFn) :
    (∃ pre, (Server.register_fn s path method meta f).2 =
        pre ++ [RegEvent.mapInsertEv (path ++ "." ++ method)]
      ∧ regCalls pre = s.register_plugins.map (fun p => (p, path, method, meta, f)))
    ∧ alGet (Server.register_fn s path method meta f).1.services
        (path ++ "." ++ method) = some f
    ∧ ∀ (p : RegisterPlugin) (e : String), p ∈ s.register_plugins →
        p path method meta f = Except.error e →
        RegEvent.pluginErrLog e ∈ (Server.register_fn s path method meta f).2 := by
  refine ⟨⟨pluginEvents s.register_plugins path method meta f, rfl,
      regCalls_pluginEvents _ _ _ _ _⟩, ?_, ?_⟩
  · show alGet (alInsert s.services (path ++ "." ++ method) f) (path ++ "." ++ method) = some f
    rw [alGet_alInsert]
    simp
  · intro p e hp he
    show RegEvent.pluginErrLog e ∈
      pluginEvents s.register_plugins path method meta f ++
        [RegEvent.mapInsertEv (path ++ "." ++ method)]
    exact List.mem_append.mpr (Or.inl (pluginErrLog_mem _ _ _ _ _ _ _ hp he))

/-- Claim C6, witness: three plugins, the second failing, still leave the
error in the trace of the call. -/
theorem c6_register_plugins_in_order_witness :
    RegEvent.pluginErrLog "veto" ∈ (Server.register_fn sPlugged "Calc" "Add" "m" hEcho).2 :=
  (c6_register_plugins_in_order sPlugged "Calc" "Add" "m" hEcho).2.2 plugB "veto"
    (List.mem_cons_of_mem _ (List.mem_cons_self _ _)) rfl

/-- Claim C7, counterexample: close() never clears raw_fd, so the second
close() call hands the same descriptor to libc::close again: two calls close
descriptor 3 twice, not once, refuting effect idempotence. -/
theorem c7_close_twice_counterexample :
    closeTrace sFd3 2 = [3, 3] ∧ closeTrace sFd3 1 = [3]
    ∧ closeTrace sFd3 2 ≠ closeTrace sFd3 1 := by
  refine ⟨rfl, rfl, ?_⟩
  decide

/-- Claim C7 (amended): close() never mutates the server (raw_fd is not
cleared); with no recorded descriptor any number of close() calls is a
no-op; with a recorded descriptor each of the n calls hands that same
descriptor to libc::close once more, so it is closed n times, not exactly
once. -/
theorem c7_close_trace (s : Server) (n : Nat) :
    (Server.close s).1 = s
    ∧ (s.raw_fd = none → closeTrace s n = [])
    ∧ ∀ fd, s.raw_fd = some fd → closeTrace s n = List.replicate n fd :=
  ⟨close_fst s, fun h => closeTrace_none s h n, fun fd h => closeTrace_some s fd h n⟩

/-- Claim C7, witness: two close() calls on a recorded descriptor. -/
theorem c7_close_trace_witness :
    closeTrace sFd3 2 = List.replicate 2 3 :=
  (c7_close_trace sFd3 2).2.2 3 rfl

/-- Claim C8: register_fn for one key leaves every other key's binding
unchanged, never drops a present key, and close() leaves the registry (the
whole state) untouched: no server operation removes a registry key. -/
theorem c8_register_frame (s : Server) (path method meta : String) (f : RpcxFn)
    (k' : String) :
    (k' ≠ path ++ "." ++ method →
      alGet (Server.register_fn s path method meta f).1.services k' = alGet s.services k')
    ∧ ((alGet s.services k').isSome = true →
        (alGet (Server.register_fn s path method meta f).1.services k').isSome = true)
    ∧ (Server.close s).1.services = s.services := by
  refine ⟨?_, ?_, by rw [close_fst]⟩
  · intro hne
    show alGet (alInsert s.services (path ++ "." ++ method) f) k' = alGet s.services k'
    rw [alGet_alInsert]
    have hbe : (path ++ "." ++ method == k') = false := by
      simpa using fun hh => hne hh.symm
    simp [hbe]
  · intro hs
    show (alGet (alInsert s.services (path ++ "." ++ method) f) k').isSome = true
    rw [alGet_alInsert]
    by_cases hk : path ++ "." ++ method = k'
    · have hbe : (path ++ "." ++ method == k') = true := by simpa using hk
      simp [hbe]
    · have hbe : (path ++ "." ++ method == k') = false := by simpa using hk
      simp only [hbe, Bool.false_eq_true, if_false]
      exact hs

/-- Claim C8, witness: registering "a.b" leaves the unrelated key "x.y"
unchanged, and a key present before a registration is still present after. -/
theorem c8_register_frame_witness :
    alGet (Server.register_fn (Server.new "" 1 1) "a" "b" "" hEcho).1.services "x.y" =
      alGet (Server.new "" 1 1).services "x.y"
    ∧ (alGet (Server.register_fn sCollision "x" "y" "" hEcho).1.services "a.b.c").isSome =
        true := by
  constructor
  · exact (c8_register_frame (Server.new "" 1 1) "a" "b" "" hEcho "x.y").1 (by decide)
  · exact (c8_register_frame sCollision "x" "y" "" hEcho "a.b.c").2.1 rfl

/-- Claim C9: with n unset (zero) the configured concurrency is exactly twice
the reported processor count, and this number is what sizes the scoped pool
of each accepted connection. -/
theorem c9_default_thread_number (addr : String) (ncpus : Nat) (h : ncpus < 2 ^ 31) :
    (Server.new addr 0 ncpus).thread_number = 2 * ncpus
    ∧ (Server.new addr 0 ncpus).spawnConnection.pool_size = 2 * ncpus := by
  have h31 : (2 : Nat) ^ 31 = 2147483648 := by norm_num
  rw [h31] at h
  have h1 : (Server.new addr 0 ncpus).thread_number = 2 * ncpus := by
    show u32 (u32 ncpus * 2) = 2 * ncpus
    unfold u32
    omega
  exact ⟨h1, h1⟩

/-- Claim C9, witness at 8 processing units. -/
theorem c9_default_thread_number_witness :
    (Server.new "0.0.0.0:8972" 0 8).thread_number = 2 * 8
    ∧ (Server.new "0.0.0.0:8972" 0 8).spawnConnection.pool_size = 2 * 8 :=
  c9_default_thread_number "0.0.0.0:8972" 8 (by norm_num)

/-- Claim C10: the ServiceKey is the plain dot-join of path and method, so any
two distinct pairs with equal joins share one registry entry: a registration
under one pair is read back under the other, and a later registration under
the other pair overwrites it. -/
theorem c10_service_key_collision (s : Server) (p1 m1 p2 m2 meta : String) (f : RpcxFn)
    (h : p1 ++ "." ++ m1 = p2 ++ "." ++ m2) :
    Server.get_fn (Server.register_fn s p1 m1 meta f).1 p2 m2 = some f
    ∧ ∀ (meta2 : String) (f2 : RpcxFn),
        Server.get_fn
          (Server.register_fn (Server.register_fn s p1 m1 meta f).1 p2 m2 meta2 f2).1 p1 m1 =
          some f2 := by
  constructor
  · show alGet (alInsert s.services (p1 ++ "." ++ m1) f) (p2 ++ "." ++ m2) = some f
    rw [← h, alGet_alInsert]
    simp
  · intro meta2 f2
    show alGet (alInsert (alInsert s.services (p1 ++ "." ++ m1) f) (p2 ++ "." ++ m2) f2)
        (p1 ++ "." ++ m1) = some f2
    rw [h, alGet_alInsert]
    simp

/-- Claim C10, witness at the colliding pairs ("a.b", "c") and ("a", "b.c"). -/
theorem c10_service_key_collision_witness :
    Server.get_fn (Server.register_fn (Server.new "" 1 1) "a.b" "c" "" hEcho).1 "a" "b.c" =
      some hEcho :=
  (c10_service_key_collision (Server.new "" 1 1) "a.b" "c" "a" "b.c" "" hEcho (by decide)).1
